import Mathlib

/-!
Verification of the data-access layer of an e-learning application.

The stores issue SQL statements against an embedded SQLite database.  We
model the database as lists of rows (one list per table, in insertion
order), and each store operation as a state transformer over an engine
state.  Engine faults are modelled by an optional index of the statement
that raises an engine error, so that the try/catch policy of each store
operation (swallow for reads, re-raise for writes) is observable.

Payload columns that no store operation ever branches on (descriptions,
cover images, timestamps other than those written by the modelled
statements, ...) are represented by a single representative field or
elided; every column that any modelled statement reads, writes or filters
on is present.
-/

namespace ELearn

/-- Role column of the users table: role IN (teacher, student). -/
inductive Role where
  | teacher
  | student
deriving DecidableEq, Repr

/-- Status column of the enrollments table: status IN (active, completed, dropped). -/
inductive EnrollStatus where
  | active
  | completed
  | dropped
deriving DecidableEq, Repr

/-- A row of the users table (email is UNIQUE in the schema). -/
structure UserRow where
  id : Nat
  email : String
  password : String
  name : String
  role : Role
deriving DecidableEq, Repr

/-- A row of the courses table (payload columns elided). -/
structure CourseRow where
  id : Nat
  teacherId : Nat
  title : String
deriving DecidableEq, Repr

/-- A row of the lessons table. -/
structure LessonRow where
  id : Nat
  courseId : Nat
  title : String
  sequenceNumber : Nat
deriving DecidableEq, Repr

/-- A row of the quizzes table. -/
structure QuizRow where
  id : Nat
  courseId : Nat
  title : String
deriving DecidableEq, Repr

/-- A row of the quiz_questions table. -/
structure QuizQuestionRow where
  id : Nat
  quizId : Nat
  questionText : String
  correctAnswer : String
  sequenceNumber : Nat
deriving DecidableEq, Repr

/-- A row of the quiz_attempts table. -/
structure QuizAttemptRow where
  id : Nat
  studentId : Nat
  quizId : Nat
  score : Nat
deriving DecidableEq, Repr

/-- A row of the quiz_answers table. -/
structure QuizAnswerRow where
  id : Nat
  attemptId : Nat
  questionId : Nat
  studentAnswer : String
  isCorrect : Nat
deriving DecidableEq, Repr

/-- A row of the enrollments table.  The schema declares
UNIQUE(studentId, courseId), completionPercentage DEFAULT 0 and
status DEFAULT active.  completionPercentage is a REAL column but the
layer only ever stores whole numbers, so it is modelled as Nat. -/
structure EnrollmentRow where
  id : Nat
  studentId : Nat
  courseId : Nat
  enrolledAt : String
  completionPercentage : Nat
  status : EnrollStatus
deriving DecidableEq, Repr

/-- A row of the lesson_progress table.  The schema declares
UNIQUE(studentId, lessonId), isCompleted INTEGER DEFAULT 0,
timeSpent INTEGER DEFAULT 0 and a nullable completedAt. -/
structure LessonProgressRow where
  id : Nat
  studentId : Nat
  lessonId : Nat
  isCompleted : Nat
  completedAt : Option String
  timeSpent : Nat
deriving DecidableEq, Repr

/-- A row of the announcements table (courseId is nullable: none means
school-wide). -/
structure AnnouncementRow where
  id : Nat
  courseId : Option Nat
  teacherId : Nat
  title : String
deriving DecidableEq, Repr

/-- A row of the assignments table. -/
structure AssignmentRow where
  id : Nat
  courseId : Nat
  title : String
deriving DecidableEq, Repr

/-- The embedded database: one list of rows per table, in insertion
(rowid) order. -/
structure DB where
  users : List UserRow
  courses : List CourseRow
  lessons : List LessonRow
  quizzes : List QuizRow
  quizQuestions : List QuizQuestionRow
  quizAttempts : List QuizAttemptRow
  quizAnswers : List QuizAnswerRow
  enrollments : List EnrollmentRow
  lessonProgress : List LessonProgressRow
  announcements : List AnnouncementRow
  assignments : List AssignmentRow
deriving DecidableEq, Repr

/-- Rowid assigned to a freshly inserted row (one more than the largest
id present, as the AUTOINCREMENT columns do). -/
def freshId (ids : List Nat) : Nat :=
  ids.foldr (fun a b => max a b) 0 + 1

/-- Engine state threaded through every store operation: the database,
the value CURRENT_TIMESTAMP evaluates to, an optional index of the SQL
statement that raises an engine error (fault injection), and the number
of statements issued so far. -/
structure EngSt where
  db : DB
  now : String
  failAt : Option Nat
  calls : Nat
deriving DecidableEq, Repr

/-- A store operation: given the engine state, produce a result (normal
return or a raised error, both of which JavaScript exceptions model as
strings) together with the state after the statements that actually
executed.  Partial effects survive a raised error, as they do in the
source, which wraps no statement sequence in a transaction. -/
def DbM (α : Type) : Type :=
  EngSt → Except String α × EngSt

/-- Return without touching the engine. -/
def pureM {α : Type} (a : α) : DbM α :=
  fun s => (Except.ok a, s)

/-- Sequence two operations; a raised error short-circuits but keeps the
state reached so far. -/
def bindM {α β : Type} (m : DbM α) (f : α → DbM β) : DbM β :=
  fun s =>
    match m s with
    | (Except.ok a, s1) => f a s1
    | (Except.error e, s1) => (Except.error e, s1)

/-- Model of a JavaScript throw statement. -/
def throwM {α : Type} (msg : String) : DbM α :=
  fun s => (Except.error msg, s)

/-- Model of a JavaScript try/catch block: the handler runs from the
state the body reached when it raised. -/
def tryCatchM {α : Type} (body : DbM α) (handler : String → DbM α) : DbM α :=
  fun s =>
    match body s with
    | (Except.ok a, s1) => (Except.ok a, s1)
    | (Except.error e, s1) => handler e s1

/-- One SQL statement issued to the engine: it raises an engine error
when the fault index equals the number of statements issued so far,
and otherwise runs its effect against the database. -/
def dbCall {α : Type} (f : DB → String → α × DB) : DbM α :=
  fun s =>
    match s.failAt with
    | some k =>
      if k == s.calls then
        (Except.error ("Database error"), { s with calls := s.calls + 1 })
      else
        (Except.ok (f s.db s.now).1,
          { s with db := (f s.db s.now).2, calls := s.calls + 1 })
    | none =>
      (Except.ok (f s.db s.now).1,
        { s with db := (f s.db s.now).2, calls := s.calls + 1 })

/-- A read-only statement (getFirstAsync / getAllAsync). -/
def dbQuery {α : Type} (f : DB → α) : DbM α :=
  dbCall (fun db _ => (f db, db))

/-- Insert an element into a list sorted by the comparator, keeping it
sorted (helper of orderBy). -/
def insertSorted {α : Type} (le : α → α → Bool) (a : α) : List α → List α
  | [] => [a]
  | b :: rest => if le a b then a :: b :: rest else b :: insertSorted le a rest

/-- The ORDER BY clause of a SELECT: a stable insertion sort by the
given comparator. -/
def orderBy {α : Type} (le : α → α → Bool) : List α → List α
  | [] => []
  | a :: rest => insertSorted le a (orderBy le rest)

/-- A mutating statement (runAsync). -/
def dbRun (f : DB → String → DB) : DbM Unit :=
  dbCall (fun db now => ((), f db now))

/-! ## Progress store (src/store/progressStore.ts) -/

/-- enrollInCourse: SELECT the enrollment for (studentId, courseId); if
one exists with status active, throw; if one exists with another
status, UPDATE it back to active with completionPercentage 0; otherwise
INSERT a fresh active enrollment with completionPercentage 0.  The
catch block logs and re-raises. -/
def enrollInCourse (studentId courseId : Nat) : DbM Unit :=
  tryCatchM
    (bindM
      (dbQuery (fun db =>
        db.enrollments.find? (fun e => e.studentId == studentId && e.courseId == courseId)))
      (fun existing =>
        match existing with
        | some row =>
          if row.status = EnrollStatus.active then
            throwM ("Already enrolled in this course")
          else
            dbRun (fun db _ =>
              { db with enrollments := db.enrollments.map (fun e =>
                  if e.studentId == studentId && e.courseId == courseId then
                    { e with status := EnrollStatus.active, completionPercentage := 0 }
                  else e) })
        | none =>
          dbRun (fun db now =>
            { db with enrollments := db.enrollments ++
                [{ id := freshId (db.enrollments.map (fun e => e.id)),
                   studentId := studentId, courseId := courseId,
                   enrolledAt := now, completionPercentage := 0,
                   status := EnrollStatus.active }] })))
    throwM

/-- getEnrollment: SELECT the enrollment; engine errors are swallowed
and null returned. -/
def getEnrollment (studentId courseId : Nat) : DbM (Option EnrollmentRow) :=
  tryCatchM
    (dbQuery (fun db =>
      db.enrollments.find? (fun e => e.studentId == studentId && e.courseId == courseId)))
    (fun _ => pureM none)

/-- fetchStudentEnrollments: SELECT the student's enrollments ORDER BY
enrolledAt DESC into the in-memory cache.  Engine errors are swallowed
and the cache left untouched; some rows means the cache was set to
rows, none means the error path ran. -/
def fetchStudentEnrollments (studentId : Nat) : DbM (Option (List EnrollmentRow)) :=
  tryCatchM
    (bindM
      (dbQuery (fun db =>
        orderBy (fun a b => b.enrolledAt ≤ a.enrolledAt)
          (db.enrollments.filter (fun e => e.studentId == studentId))))
      (fun rows => pureM (some rows)))
    (fun _ => pureM none)

/-- updateEnrollmentProgress: UPDATE the completionPercentage of the
enrollment with the given id.  The catch block logs and re-raises. -/
def updateEnrollmentProgress (enrollmentId completionPercentage : Nat) : DbM Unit :=
  tryCatchM
    (dbRun (fun db _ =>
      { db with enrollments := db.enrollments.map (fun e =>
          if e.id == enrollmentId then
            { e with completionPercentage := completionPercentage }
          else e) }))
    throwM

/-- markLessonComplete: SELECT the progress row for (studentId,
lessonId); UPDATE it to isCompleted 1 with completedAt
CURRENT_TIMESTAMP when present, otherwise INSERT such a row (timeSpent
takes the column default 0).  The catch block logs and re-raises. -/
def markLessonComplete (studentId lessonId : Nat) : DbM Unit :=
  tryCatchM
    (bindM
      (dbQuery (fun db =>
        db.lessonProgress.find? (fun p => p.studentId == studentId && p.lessonId == lessonId)))
      (fun existing =>
        match existing with
        | some _ =>
          dbRun (fun db now =>
            { db with lessonProgress := db.lessonProgress.map (fun p =>
                if p.studentId == studentId && p.lessonId == lessonId then
                  { p with isCompleted := 1, completedAt := some now }
                else p) })
        | none =>
          dbRun (fun db now =>
            { db with lessonProgress := db.lessonProgress ++
                [{ id := freshId (db.lessonProgress.map (fun p => p.id)),
                   studentId := studentId, lessonId := lessonId,
                   isCompleted := 1, completedAt := some now, timeSpent := 0 }] })))
    throwM

/-- markLessonIncomplete: a single UPDATE setting isCompleted 0 and
completedAt NULL on the matching rows; no INSERT branch exists, so the
statement is a no-op when no row matches.  The catch block logs and
re-raises. -/
def markLessonIncomplete (studentId lessonId : Nat) : DbM Unit :=
  tryCatchM
    (dbRun (fun db _ =>
      { db with lessonProgress := db.lessonProgress.map (fun p =>
          if p.studentId == studentId && p.lessonId == lessonId then
            { p with isCompleted := 0, completedAt := none }
          else p) }))
    throwM

/-- updateLessonTimeSpent: SELECT the progress row; when present, UPDATE
timeSpent to the stored value plus the increment; otherwise INSERT a
row whose timeSpent is the increment (isCompleted and completedAt take
the column defaults).  The catch block logs and re-raises. -/
def updateLessonTimeSpent (studentId lessonId timeSpent : Nat) : DbM Unit :=
  tryCatchM
    (bindM
      (dbQuery (fun db =>
        db.lessonProgress.find? (fun p => p.studentId == studentId && p.lessonId == lessonId)))
      (fun existing =>
        match existing with
        | some row =>
          dbRun (fun db _ =>
            { db with lessonProgress := db.lessonProgress.map (fun p =>
                if p.studentId == studentId && p.lessonId == lessonId then
                  { p with timeSpent := row.timeSpent + timeSpent }
                else p) })
        | none =>
          dbRun (fun db _ =>
            { db with lessonProgress := db.lessonProgress ++
                [{ id := freshId (db.lessonProgress.map (fun p => p.id)),
                   studentId := studentId, lessonId := lessonId,
                   isCompleted := 0, completedAt := none, timeSpent := timeSpent }] })))
    throwM

/-- getCourseProgress: SELECT completionPercentage from the enrollment;
0 when no row matches; engine errors are swallowed and 0 returned. -/
def getCourseProgress (studentId courseId : Nat) : DbM Nat :=
  tryCatchM
    (bindM
      (dbQuery (fun db =>
        db.enrollments.find? (fun e => e.studentId == studentId && e.courseId == courseId)))
      (fun result =>
        match result with
        | some row => pureM row.completionPercentage
        | none => pureM 0))
    (fun _ => pureM 0)

/-! ## Course store -/

/-- deleteCourse: six DELETE statements in source order (lessons,
quizzes, enrollments, announcements, assignments, then the course row);
the catch block logs and re-raises, so a failure aborts the remainder
with no rollback of the deletes already applied. -/
def deleteCourse (courseId : Nat) : DbM Unit :=
  tryCatchM
    (bindM (dbRun (fun db _ =>
        { db with lessons := db.lessons.filter (fun l => !(l.courseId == courseId)) }))
      (fun _ =>
        bindM (dbRun (fun db _ =>
            { db with quizzes := db.quizzes.filter (fun q => !(q.courseId == courseId)) }))
          (fun _ =>
            bindM (dbRun (fun db _ =>
                { db with enrollments := db.enrollments.filter (fun e => !(e.courseId == courseId)) }))
              (fun _ =>
                bindM (dbRun (fun db _ =>
                    { db with announcements := db.announcements.filter (fun a => !(a.courseId == some courseId)) }))
                  (fun _ =>
                    bindM (dbRun (fun db _ =>
                        { db with assignments := db.assignments.filter (fun a => !(a.courseId == courseId)) }))
                      (fun _ =>
                        dbRun (fun db _ =>
                          { db with courses := db.courses.filter (fun c => !(c.id == courseId)) })))))))
    throwM

/-- The SELECT behind fetchLessons: the rows of the course ORDER BY
sequenceNumber ASC. -/
def fetchLessonsQuery (courseId : Nat) (db : DB) : List LessonRow :=
  orderBy (fun a b => a.sequenceNumber ≤ b.sequenceNumber)
    (db.lessons.filter (fun l => l.courseId == courseId))

/-- fetchLessons: run the SELECT into the in-memory cache; engine errors
are swallowed (none) and the cache left untouched. -/
def fetchLessons (courseId : Nat) : DbM (Option (List LessonRow)) :=
  tryCatchM
    (bindM (dbQuery (fetchLessonsQuery courseId))
      (fun rows => pureM (some rows)))
    (fun _ => pureM none)

/-- deleteLesson: DELETE the lesson_progress rows of the lesson, then
the lesson row.  The catch block logs and re-raises. -/
def deleteLesson (lessonId : Nat) : DbM Unit :=
  tryCatchM
    (bindM (dbRun (fun db _ =>
        { db with lessonProgress := db.lessonProgress.filter (fun p => !(p.lessonId == lessonId)) }))
      (fun _ =>
        dbRun (fun db _ =>
          { db with lessons := db.lessons.filter (fun l => !(l.id == lessonId)) })))
    throwM

/-! ## Quiz store -/

/-- deleteQuiz: DELETE the quiz_questions and quiz_attempts rows of the
quiz, then the quiz row; quiz_answers is not touched.  The catch block
logs and re-raises. -/
def deleteQuiz (quizId : Nat) : DbM Unit :=
  tryCatchM
    (bindM (dbRun (fun db _ =>
        { db with quizQuestions := db.quizQuestions.filter (fun q => !(q.quizId == quizId)) }))
      (fun _ =>
        bindM (dbRun (fun db _ =>
            { db with quizAttempts := db.quizAttempts.filter (fun a => !(a.quizId == quizId)) }))
          (fun _ =>
            dbRun (fun db _ =>
              { db with quizzes := db.quizzes.filter (fun q => !(q.id == quizId)) }))))
    throwM

/-- deleteQuestion: DELETE the quiz_answers rows referencing the
question, then the question row.  The catch block logs and re-raises. -/
def deleteQuestion (questionId : Nat) : DbM Unit :=
  tryCatchM
    (bindM (dbRun (fun db _ =>
        { db with quizAnswers := db.quizAnswers.filter (fun a => !(a.questionId == questionId)) }))
      (fun _ =>
        dbRun (fun db _ =>
          { db with quizQuestions := db.quizQuestions.filter (fun q => !(q.id == questionId)) })))
    throwM

/-! ## Auth store (src/store/authStore.ts) -/

/-- The in-memory session the auth store keeps (user and isLoggedIn). -/
structure Session where
  user : Option UserRow
  isLoggedIn : Bool
deriving DecidableEq, Repr

/-- State the auth store operates on: the database plus the session. -/
structure AuthSt where
  db : DB
  session : Session
deriving DecidableEq, Repr

/-- The string the role column stores for each role value. -/
def roleString : Role → String
  | Role.teacher => "teacher"
  | Role.student => "student"

/-- login: SELECT a user matching email, password and role; on success
store the user in the session; on miss, re-SELECT by email and password
alone to distinguish a wrong role (error naming the stored role) from
wrong credentials (generic error). -/
def login (email password : String) (role : Role) (s : AuthSt) :
    Except String UserRow × AuthSt :=
  match s.db.users.find? (fun u =>
      u.email == email && u.password == password && decide (u.role = role)) with
  | some u =>
    (Except.ok u, { s with session := { user := some u, isLoggedIn := true } })
  | none =>
    match s.db.users.find? (fun u => u.email == email && u.password == password) with
    | some actualUser =>
      (Except.error ("This account is registered as a " ++ roleString actualUser.role
          ++ ". Please select the correct role."), s)
    | none =>
      (Except.error ("Invalid email or password"), s)

/-- signup: SELECT a user by email; throw when one exists, otherwise
INSERT the new user.  The session is never set (no auto-login). -/
def signup (email password name : String) (role : Role) (s : AuthSt) :
    Except String Unit × AuthSt :=
  match s.db.users.find? (fun u => u.email == email) with
  | some _ =>
    (Except.error ("Email already registered"), s)
  | none =>
    (Except.ok (),
      { s with db := { s.db with users := s.db.users ++
          [{ id := freshId (s.db.users.map (fun u => u.id)),
             email := email, password := password, name := name, role := role }] } })

/-! ## Key-uniqueness predicates mirroring the schema constraints -/

/-- True when no two rows of the list share a key (computable form of
the UNIQUE constraints the schema declares). -/
def allDistinctBy {α β : Type} [BEq β] (key : α → β) : List α → Bool
  | [] => true
  | a :: rest => rest.all (fun b => !(key b == key a)) && allDistinctBy key rest

/-- Key of the UNIQUE(studentId, courseId) constraint on enrollments. -/
def enrollKey (e : EnrollmentRow) : Nat × Nat :=
  (e.studentId, e.courseId)

/-- Key of the UNIQUE(studentId, lessonId) constraint on lesson_progress. -/
def lpKey (p : LessonProgressRow) : Nat × Nat :=
  (p.studentId, p.lessonId)

/-- Key of the UNIQUE constraint on users.email. -/
def userEmail (u : UserRow) : String :=
  u.email

/-- Whether an operation returned normally (no raised error). -/
def exceptOk {α : Type} : Except String α → Bool
  | Except.ok _ => true
  | Except.error _ => false

/-! ## Concrete databases used in witness evaluations -/

/-- An empty database. -/
def dbW0 : DB :=
  { users := [], courses := [], lessons := [], quizzes := [], quizQuestions := [],
    quizAttempts := [], quizAnswers := [],
    enrollments := [], lessonProgress := [], announcements := [], assignments := [] }

/-- One dropped enrollment of student 1 in course 2. -/
def dbW1 : DB :=
  { dbW0 with
      enrollments := [{ id := 1, studentId := 1, courseId := 2, enrolledAt := "t0",
                        completionPercentage := 40, status := EnrollStatus.dropped }] }

/-- One completed enrollment of student 3 in course 4. -/
def dbW2 : DB :=
  { dbW0 with
      enrollments := [{ id := 1, studentId := 3, courseId := 4, enrolledAt := "t0",
                        completionPercentage := 100, status := EnrollStatus.completed }] }

/-- One course (id 1) with one dependent row of each kind, including
grandchild rows (lesson progress, a quiz question, an attempt and an
answer). -/
def dbW3 : DB :=
  { users := [],
    courses := [{ id := 1, teacherId := 1, title := "C" }],
    lessons := [{ id := 1, courseId := 1, title := "L", sequenceNumber := 1 }],
    quizzes := [{ id := 1, courseId := 1, title := "Q" }],
    quizQuestions := [{ id := 1, quizId := 1, questionText := "q", correctAnswer := "a",
                        sequenceNumber := 1 }],
    quizAttempts := [{ id := 1, studentId := 1, quizId := 1, score := 100 }],
    quizAnswers := [{ id := 1, attemptId := 1, questionId := 1, studentAnswer := "a",
                      isCorrect := 1 }],
    enrollments := [{ id := 1, studentId := 1, courseId := 1, enrolledAt := "t0",
                      completionPercentage := 0, status := EnrollStatus.active }],
    lessonProgress := [{ id := 1, studentId := 1, lessonId := 1, isCompleted := 1,
                         completedAt := some "t0", timeSpent := 5 }],
    announcements := [{ id := 1, courseId := some 1, teacherId := 1, title := "A" }],
    assignments := [{ id := 1, courseId := 1, title := "H" }] }

/-- A course table whose two lessons were inserted out of sequence
order (sequence numbers 2 then 1). -/
def dbW5 : DB :=
  { dbW0 with
      lessons := [{ id := 1, courseId := 1, title := "L2", sequenceNumber := 2 },
                  { id := 2, courseId := 1, title := "L1", sequenceNumber := 1 }] }

/-- One registered teacher account. -/
def dbW6 : DB :=
  { dbW0 with
      users := [{ id := 1, email := "a@b.c", password := "pw", name := "N",
                  role := Role.teacher }] }

/-! ## Generic list lemmas for first-match queries under a UNIQUE key -/

theorem find?_eq_some_of_unique {α : Type} {l : List α} {p : α → Bool} {u : α}
    (hu : u ∈ l) (hp : p u = true) (huniq : ∀ x ∈ l, p x = true → x = u) :
    l.find? p = some u := by
  induction l with
  | nil => cases hu
  | cons a rest ih =>
    by_cases ha : p a = true
    · have hau : a = u := huniq a (List.mem_cons_self a rest) ha
      rw [List.find?_cons_of_pos _ ha, hau]
    · have hmem : u ∈ rest := by
        rcases List.mem_cons.mp hu with rfl | h
        · exact absurd hp ha
        · exact h
      rw [List.find?_cons_of_neg _ (by simpa using ha)]
      exact ih hmem (fun x hx hpx => huniq x (List.mem_cons_of_mem a hx) hpx)

theorem allDistinctBy_unique {α β : Type} [BEq β] [LawfulBEq β] {key : α → β}
    {l : List α} (h : allDistinctBy key l = true) :
    ∀ x ∈ l, ∀ y ∈ l, key x = key y → x = y := by
  induction l with
  | nil => intro x hx; cases hx
  | cons a rest ih =>
    simp only [allDistinctBy, Bool.and_eq_true, List.all_eq_true, Bool.not_eq_true',
      beq_eq_false_iff_ne, ne_eq] at h
    obtain ⟨hhead, htail⟩ := h
    intro x hx y hy hk
    rcases List.mem_cons.mp hx with hxa | hxr
    · rcases List.mem_cons.mp hy with hya | hyr
      · rw [hxa, hya]
      · exact absurd (hk.symm.trans (congrArg key hxa)) (hhead y hyr)
    · rcases List.mem_cons.mp hy with hya | hyr
      · exact absurd (hk.trans (congrArg key hya)) (hhead x hxr)
      · exact ih htail x hxr y hyr hk

theorem enrollKeyP_iff {sid cid : Nat} {e : EnrollmentRow} :
    (e.studentId == sid && e.courseId == cid) = true ↔ enrollKey e = (sid, cid) := by
  simp [enrollKey, Prod.ext_iff]

theorem lpKeyP_iff {sid lid : Nat} {p : LessonProgressRow} :
    (p.studentId == sid && p.lessonId == lid) = true ↔ lpKey p = (sid, lid) := by
  simp [lpKey, Prod.ext_iff]

/-- First-match lookup on the enrollments table, under the schema's
UNIQUE(studentId, courseId), finds exactly the member row with the key. -/
theorem enroll_find?_eq {s : EngSt} {sid cid : Nat} {row : EnrollmentRow}
    (huniq : allDistinctBy enrollKey s.db.enrollments = true)
    (hmem : row ∈ s.db.enrollments) (hkey : enrollKey row = (sid, cid)) :
    s.db.enrollments.find? (fun e => e.studentId == sid && e.courseId == cid) = some row :=
  find?_eq_some_of_unique hmem (enrollKeyP_iff.mpr hkey)
    (fun x hx hpx =>
      allDistinctBy_unique huniq x hx row hmem ((enrollKeyP_iff.mp hpx).trans hkey.symm))

/-- First-match lookup on the lesson_progress table, under the schema's
UNIQUE(studentId, lessonId), finds exactly the member row with the key. -/
theorem lp_find?_eq {s : EngSt} {sid lid : Nat} {row : LessonProgressRow}
    (huniq : allDistinctBy lpKey s.db.lessonProgress = true)
    (hmem : row ∈ s.db.lessonProgress) (hkey : lpKey row = (sid, lid)) :
    s.db.lessonProgress.find? (fun p => p.studentId == sid && p.lessonId == lid) = some row :=
  find?_eq_some_of_unique hmem (lpKeyP_iff.mpr hkey)
    (fun x hx hpx =>
      allDistinctBy_unique huniq x hx row hmem ((lpKeyP_iff.mp hpx).trans hkey.symm))

/-! ## Branch evaluations of enrollInCourse -/

theorem enrollInCourse_eq_of_find_active {s : EngSt} {sid cid : Nat} {row : EnrollmentRow}
    (hfault : s.failAt = none)
    (hfind : s.db.enrollments.find?
      (fun e => e.studentId == sid && e.courseId == cid) = some row)
    (hst : row.status = EnrollStatus.active) :
    enrollInCourse sid cid s =
      (Except.error ("Already enrolled in this course"), { s with calls := s.calls + 1 }) := by
  simp [enrollInCourse, tryCatchM, bindM, dbQuery, dbCall, throwM, hfault, hfind, hst]

theorem enrollInCourse_eq_of_find_reactivate {s : EngSt} {sid cid : Nat} {row : EnrollmentRow}
    (hfault : s.failAt = none)
    (hfind : s.db.enrollments.find?
      (fun e => e.studentId == sid && e.courseId == cid) = some row)
    (hst : ¬ row.status = EnrollStatus.active) :
    enrollInCourse sid cid s =
      (Except.ok (),
        { s with
            db := { s.db with enrollments := s.db.enrollments.map (fun e =>
              if e.studentId == sid && e.courseId == cid then
                { e with status := EnrollStatus.active, completionPercentage := 0 }
              else e) },
            calls := s.calls + 1 + 1 }) := by
  simp [enrollInCourse, tryCatchM, bindM, dbQuery, dbRun, dbCall, throwM, hfault, hfind, hst]

theorem enrollInCourse_eq_of_not_found {s : EngSt} {sid cid : Nat}
    (hfault : s.failAt = none)
    (hfind : s.db.enrollments.find?
      (fun e => e.studentId == sid && e.courseId == cid) = none) :
    enrollInCourse sid cid s =
      (Except.ok (),
        { s with
            db := { s.db with enrollments := s.db.enrollments ++
              [{ id := freshId (s.db.enrollments.map (fun e => e.id)),
                 studentId := sid, courseId := cid, enrolledAt := s.now,
                 completionPercentage := 0, status := EnrollStatus.active }] },
            calls := s.calls + 1 + 1 }) := by
  simp [enrollInCourse, tryCatchM, bindM, dbQuery, dbRun, dbCall, throwM, hfault, hfind]

/-- C1: enrollInCourse fails with the already-enrolled error when an
active enrollment for (studentId, courseId) exists; when a dropped
enrollment exists it updates that row back to status active with
completionPercentage 0 and inserts nothing (the row count is
unchanged); and when no enrollment for the pair exists it inserts a
fresh row with status active and completionPercentage 0.  The
uniqueness hypothesis mirrors the schema's UNIQUE(studentId, courseId)
constraint. -/
theorem enrollInCourse_cases (s : EngSt) (sid cid : Nat)
    (hfault : s.failAt = none)
    (huniq : allDistinctBy enrollKey s.db.enrollments = true) :
    (∀ row ∈ s.db.enrollments, enrollKey row = (sid, cid) →
      row.status = EnrollStatus.active →
      (enrollInCourse sid cid s).1 = Except.error ("Already enrolled in this course") ∧
      (enrollInCourse sid cid s).2.db = s.db) ∧
    (∀ row ∈ s.db.enrollments, enrollKey row = (sid, cid) →
      row.status = EnrollStatus.dropped →
      (enrollInCourse sid cid s).1 = Except.ok () ∧
      (enrollInCourse sid cid s).2.db.enrollments =
        s.db.enrollments.map (fun e =>
          if e.studentId == sid && e.courseId == cid then
            { e with status := EnrollStatus.active, completionPercentage := 0 }
          else e) ∧
      (enrollInCourse sid cid s).2.db.enrollments.length = s.db.enrollments.length) ∧
    ((∀ row ∈ s.db.enrollments, ¬ enrollKey row = (sid, cid)) →
      (enrollInCourse sid cid s).1 = Except.ok () ∧
      (enrollInCourse sid cid s).2.db.enrollments =
        s.db.enrollments ++
          [{ id := freshId (s.db.enrollments.map (fun e => e.id)),
             studentId := sid, courseId := cid, enrolledAt := s.now,
             completionPercentage := 0, status := EnrollStatus.active }]) := by
  refine ⟨?_, ?_, ?_⟩
  · intro row hmem hkey hst
    rw [enrollInCourse_eq_of_find_active hfault (enroll_find?_eq huniq hmem hkey) hst]
    exact ⟨rfl, rfl⟩
  · intro row hmem hkey hst
    rw [enrollInCourse_eq_of_find_reactivate hfault (enroll_find?_eq huniq hmem hkey)
      (by rw [hst]; intro h; cases h)]
    exact ⟨rfl, rfl, by simp⟩
  · intro hnone
    have hfind : s.db.enrollments.find?
        (fun e => e.studentId == sid && e.courseId == cid) = none :=
      List.find?_eq_none.mpr (fun x hx hpx => hnone x hx (enrollKeyP_iff.mp hpx))
    rw [enrollInCourse_eq_of_not_found hfault hfind]
    exact ⟨rfl, rfl⟩

theorem enrollInCourse_cases_witness :
    (enrollInCourse 1 2 { db := dbW1, now := "t1", failAt := none, calls := 0 }).1 =
      Except.ok () :=
  ((enrollInCourse_cases { db := dbW1, now := "t1", failAt := none, calls := 0 } 1 2
      rfl (by decide)).2.1
    { id := 1, studentId := 1, courseId := 2, enrolledAt := "t0",
      completionPercentage := 40, status := EnrollStatus.dropped }
    (by decide) rfl rfl).1

/-- C10: when the stored enrollment for (studentId, courseId) has
status completed, enrollInCourse succeeds, sets the status back to
active and resets completionPercentage to 0, erasing the completed
state; the row is updated in place (the row count is unchanged). -/
theorem enrollInCourse_completed_reactivates (s : EngSt) (sid cid : Nat)
    (hfault : s.failAt = none)
    (huniq : allDistinctBy enrollKey s.db.enrollments = true) :
    ∀ row ∈ s.db.enrollments, enrollKey row = (sid, cid) →
      row.status = EnrollStatus.completed →
      (enrollInCourse sid cid s).1 = Except.ok () ∧
      (enrollInCourse sid cid s).2.db.enrollments =
        s.db.enrollments.map (fun e =>
          if e.studentId == sid && e.courseId == cid then
            { e with status := EnrollStatus.active, completionPercentage := 0 }
          else e) ∧
      (enrollInCourse sid cid s).2.db.enrollments.length = s.db.enrollments.length := by
  intro row hmem hkey hst
  rw [enrollInCourse_eq_of_find_reactivate hfault (enroll_find?_eq huniq hmem hkey)
    (by rw [hst]; intro h; cases h)]
  exact ⟨rfl, rfl, by simp⟩

theorem enrollInCourse_completed_reactivates_witness :
    (enrollInCourse 3 4 { db := dbW2, now := "t1", failAt := none, calls := 0 }).2.db.enrollments =
      [{ id := 1, studentId := 3, courseId := 4, enrolledAt := "t0",
         completionPercentage := 0, status := EnrollStatus.active }] := by
  have h := (enrollInCourse_completed_reactivates
      { db := dbW2, now := "t1", failAt := none, calls := 0 } 3 4 rfl (by decide)
      { id := 1, studentId := 3, courseId := 4, enrolledAt := "t0",
        completionPercentage := 100, status := EnrollStatus.completed }
      (by decide) rfl rfl).2.1
  rw [h]
  decide

/-! ## Branch evaluations of the lesson-progress operations -/

theorem markLessonComplete_eq_of_found {s : EngSt} {sid lid : Nat} {row : LessonProgressRow}
    (hfault : s.failAt = none)
    (hfind : s.db.lessonProgress.find?
      (fun p => p.studentId == sid && p.lessonId == lid) = some row) :
    markLessonComplete sid lid s =
      (Except.ok (),
        { s with
            db := { s.db with lessonProgress := s.db.lessonProgress.map (fun p =>
              if p.studentId == sid && p.lessonId == lid then
                { p with isCompleted := 1, completedAt := some s.now }
              else p) },
            calls := s.calls + 1 + 1 }) := by
  simp [markLessonComplete, tryCatchM, bindM, dbQuery, dbRun, dbCall, throwM, hfault, hfind]

theorem markLessonComplete_eq_of_not_found {s : EngSt} {sid lid : Nat}
    (hfault : s.failAt = none)
    (hfind : s.db.lessonProgress.find?
      (fun p => p.studentId == sid && p.lessonId == lid) = none) :
    markLessonComplete sid lid s =
      (Except.ok (),
        { s with
            db := { s.db with lessonProgress := s.db.lessonProgress ++
              [{ id := freshId (s.db.lessonProgress.map (fun p => p.id)),
                 studentId := sid, lessonId := lid,
                 isCompleted := 1, completedAt := some s.now, timeSpent := 0 }] },
            calls := s.calls + 1 + 1 }) := by
  simp [markLessonComplete, tryCatchM, bindM, dbQuery, dbRun, dbCall, throwM, hfault, hfind]

theorem markLessonIncomplete_eq {s : EngSt} {sid lid : Nat}
    (hfault : s.failAt = none) :
    markLessonIncomplete sid lid s =
      (Except.ok (),
        { s with
            db := { s.db with lessonProgress := s.db.lessonProgress.map (fun p =>
              if p.studentId == sid && p.lessonId == lid then
                { p with isCompleted := 0, completedAt := none }
              else p) },
            calls := s.calls + 1 }) := by
  simp [markLessonIncomplete, tryCatchM, bindM, dbRun, dbCall, throwM, hfault]

/-- A lesson-progress UPDATE keyed on a pair no stored row matches
changes nothing. -/
theorem lp_map_id_of_none {l : List LessonProgressRow} {sid lid : Nat}
    (f : LessonProgressRow → LessonProgressRow)
    (hnone : ∀ row ∈ l, ¬ lpKey row = (sid, lid)) :
    (l.map (fun p =>
      if p.studentId == sid && p.lessonId == lid then f p else p)) = l := by
  have h : ∀ p ∈ l, (if p.studentId == sid && p.lessonId == lid then f p else p) = p := by
    intro p hp
    have : ¬ ((p.studentId == sid && p.lessonId == lid) = true) :=
      fun hpx => hnone p hp (lpKeyP_iff.mp hpx)
    simp [this]
  rw [List.map_congr_left h]
  simp

/-- C2 counterexample: on a database with no lesson_progress row for
(student 1, lesson 1), markLessonIncomplete succeeds but creates no
row — it has no insert branch, so it is not an upsert. -/
theorem markLessonIncomplete_no_insert_cex :
    (markLessonIncomplete 1 1 { db := dbW0, now := "t0", failAt := none, calls := 0 }).1 =
      Except.ok () ∧
    (markLessonIncomplete 1 1
      { db := dbW0, now := "t0", failAt := none, calls := 0 }).2.db.lessonProgress = [] :=
  ⟨rfl, rfl⟩

/-- C2 amended: markLessonComplete has upsert semantics keyed on
(studentId, lessonId) — it updates the stored row when one exists and
inserts one otherwise; markLessonIncomplete only updates (clearing
isCompleted and completedAt on every row with the key) and creates no
row when none exists; and for a pair with no prior progress row,
markLessonComplete followed immediately by markLessonIncomplete leaves
exactly one progress row for the pair, with isCompleted 0 (false) and
completedAt cleared. -/
theorem lessonProgress_upsert_spec (s : EngSt) (sid lid : Nat)
    (hfault : s.failAt = none)
    (huniq : allDistinctBy lpKey s.db.lessonProgress = true) :
    (∀ row ∈ s.db.lessonProgress, lpKey row = (sid, lid) →
      (markLessonComplete sid lid s).1 = Except.ok () ∧
      (markLessonComplete sid lid s).2.db.lessonProgress =
        s.db.lessonProgress.map (fun p =>
          if p.studentId == sid && p.lessonId == lid then
            { p with isCompleted := 1, completedAt := some s.now }
          else p) ∧
      (markLessonComplete sid lid s).2.db.lessonProgress.length =
        s.db.lessonProgress.length) ∧
    ((∀ row ∈ s.db.lessonProgress, ¬ lpKey row = (sid, lid)) →
      (markLessonComplete sid lid s).1 = Except.ok () ∧
      (markLessonComplete sid lid s).2.db.lessonProgress =
        s.db.lessonProgress ++
          [{ id := freshId (s.db.lessonProgress.map (fun p => p.id)),
             studentId := sid, lessonId := lid,
             isCompleted := 1, completedAt := some s.now, timeSpent := 0 }]) ∧
    ((markLessonIncomplete sid lid s).1 = Except.ok () ∧
      (markLessonIncomplete sid lid s).2.db.lessonProgress =
        s.db.lessonProgress.map (fun p =>
          if p.studentId == sid && p.lessonId == lid then
            { p with isCompleted := 0, completedAt := none }
          else p) ∧
      ((∀ row ∈ s.db.lessonProgress, ¬ lpKey row = (sid, lid)) →
        (markLessonIncomplete sid lid s).2.db.lessonProgress = s.db.lessonProgress)) ∧
    ((∀ row ∈ s.db.lessonProgress, ¬ lpKey row = (sid, lid)) →
      (markLessonIncomplete sid lid (markLessonComplete sid lid s).2).2.db.lessonProgress =
        s.db.lessonProgress ++
          [{ id := freshId (s.db.lessonProgress.map (fun p => p.id)),
             studentId := sid, lessonId := lid,
             isCompleted := 0, completedAt := none, timeSpent := 0 }] ∧
      ((markLessonIncomplete sid lid (markLessonComplete sid lid s).2).2.db.lessonProgress.filter
          (fun p => p.studentId == sid && p.lessonId == lid)).length = 1) := by
  have hnoneFind : (∀ row ∈ s.db.lessonProgress, ¬ lpKey row = (sid, lid)) →
      s.db.lessonProgress.find? (fun p => p.studentId == sid && p.lessonId == lid) = none :=
    fun hnone => List.find?_eq_none.mpr (fun x hx hpx => hnone x hx (lpKeyP_iff.mp hpx))
  refine ⟨?_, ?_, ?_, ?_⟩
  · intro row hmem hkey
    rw [markLessonComplete_eq_of_found hfault (lp_find?_eq huniq hmem hkey)]
    exact ⟨rfl, rfl, by simp⟩
  · intro hnone
    rw [markLessonComplete_eq_of_not_found hfault (hnoneFind hnone)]
    exact ⟨rfl, rfl⟩
  · rw [markLessonIncomplete_eq hfault]
    refine ⟨rfl, rfl, ?_⟩
    intro hnone
    exact lp_map_id_of_none _ hnone
  · intro hnone
    rw [markLessonComplete_eq_of_not_found hfault (hnoneFind hnone)]
    rw [markLessonIncomplete_eq (by simp [hfault])]
    constructor
    · rw [List.map_append, lp_map_id_of_none _ hnone]
      simp
    · rw [List.map_append, lp_map_id_of_none _ hnone, List.filter_append]
      have hfl : s.db.lessonProgress.filter
          (fun p => p.studentId == sid && p.lessonId == lid) = [] := by
        rw [List.filter_eq_nil_iff]
        intro a ha hpa
        exact hnone a ha (lpKeyP_iff.mp hpa)
      rw [hfl]
      simp

/-- C2-amended witness: a fresh student-lesson pair on the empty
database goes through the insert branch of markLessonComplete and the
update of markLessonIncomplete, ending with the single cleared row. -/
theorem lessonProgress_upsert_spec_witness :
    (markLessonIncomplete 5 6 (markLessonComplete 5 6
      { db := dbW0, now := "t0", failAt := none, calls := 0 }).2).2.db.lessonProgress =
      [{ id := 1, studentId := 5, lessonId := 6,
         isCompleted := 0, completedAt := none, timeSpent := 0 }] := by
  have h := ((lessonProgress_upsert_spec
      { db := dbW0, now := "t0", failAt := none, calls := 0 } 5 6 rfl (by decide)).2.2.2
    (by intro row hrow; cases hrow)).1
  rw [h]
  decide

/-! ## Branch evaluations of updateLessonTimeSpent -/

theorem updateLessonTimeSpent_eq_of_found {s : EngSt} {sid lid d : Nat}
    {row : LessonProgressRow}
    (hfault : s.failAt = none)
    (hfind : s.db.lessonProgress.find?
      (fun p => p.studentId == sid && p.lessonId == lid) = some row) :
    updateLessonTimeSpent sid lid d s =
      (Except.ok (),
        { s with
            db := { s.db with lessonProgress := s.db.lessonProgress.map (fun p =>
              if p.studentId == sid && p.lessonId == lid then
                { p with timeSpent := row.timeSpent + d }
              else p) },
            calls := s.calls + 1 + 1 }) := by
  simp [updateLessonTimeSpent, tryCatchM, bindM, dbQuery, dbRun, dbCall, throwM, hfault, hfind]

theorem updateLessonTimeSpent_eq_of_not_found {s : EngSt} {sid lid d : Nat}
    (hfault : s.failAt = none)
    (hfind : s.db.lessonProgress.find?
      (fun p => p.studentId == sid && p.lessonId == lid) = none) :
    updateLessonTimeSpent sid lid d s =
      (Except.ok (),
        { s with
            db := { s.db with lessonProgress := s.db.lessonProgress ++
              [{ id := freshId (s.db.lessonProgress.map (fun p => p.id)),
                 studentId := sid, lessonId := lid,
                 isCompleted := 0, completedAt := none, timeSpent := d }] },
            calls := s.calls + 1 + 1 }) := by
  simp [updateLessonTimeSpent, tryCatchM, bindM, dbQuery, dbRun, dbCall, throwM, hfault, hfind]

/-- The timeSpent UPDATE leaves the key columns alone, so the key
predicate is invariant under it. -/
theorem lp_key_pred_of_timeSpent_update {sid lid t : Nat} :
    (fun p : LessonProgressRow => p.studentId == sid && p.lessonId == lid) ∘
      (fun p : LessonProgressRow =>
        if p.studentId == sid && p.lessonId == lid then { p with timeSpent := t } else p) =
    (fun p : LessonProgressRow => p.studentId == sid && p.lessonId == lid) := by
  funext p
  by_cases hp : (p.studentId == sid && p.lessonId == lid) = true
  · simp [Function.comp, hp]
  · simp [Function.comp, hp]

/-- C4: updateLessonTimeSpent accumulates rather than overwrites — with
a stored row of timeSpent t for the key it stores t plus the increment;
with no stored row it inserts one whose timeSpent is the increment; and
calling with d1 and then d2 leaves the same database as calling once
with d1 + d2 (so two calls of 30 from no row leave 60, not 30).  The
uniqueness hypothesis mirrors the schema's UNIQUE(studentId, lessonId)
constraint. -/
theorem updateLessonTimeSpent_accumulates (s : EngSt) (sid lid d1 d2 : Nat)
    (hfault : s.failAt = none)
    (huniq : allDistinctBy lpKey s.db.lessonProgress = true) :
    (∀ row ∈ s.db.lessonProgress, lpKey row = (sid, lid) →
      (updateLessonTimeSpent sid lid d1 s).1 = Except.ok () ∧
      (updateLessonTimeSpent sid lid d1 s).2.db.lessonProgress =
        s.db.lessonProgress.map (fun p =>
          if p.studentId == sid && p.lessonId == lid then
            { p with timeSpent := row.timeSpent + d1 }
          else p)) ∧
    ((∀ row ∈ s.db.lessonProgress, ¬ lpKey row = (sid, lid)) →
      (updateLessonTimeSpent sid lid d1 s).1 = Except.ok () ∧
      (updateLessonTimeSpent sid lid d1 s).2.db.lessonProgress =
        s.db.lessonProgress ++
          [{ id := freshId (s.db.lessonProgress.map (fun p => p.id)),
             studentId := sid, lessonId := lid,
             isCompleted := 0, completedAt := none, timeSpent := d1 }]) ∧
    (updateLessonTimeSpent sid lid d2 (updateLessonTimeSpent sid lid d1 s).2).2.db =
      (updateLessonTimeSpent sid lid (d1 + d2) s).2.db := by
  refine ⟨?_, ?_, ?_⟩
  · intro row hmem hkey
    rw [updateLessonTimeSpent_eq_of_found hfault (lp_find?_eq huniq hmem hkey)]
    exact ⟨rfl, rfl⟩
  · intro hnone
    rw [updateLessonTimeSpent_eq_of_not_found hfault
      (List.find?_eq_none.mpr (fun x hx hpx => hnone x hx (lpKeyP_iff.mp hpx)))]
    exact ⟨rfl, rfl⟩
  · cases hfind : s.db.lessonProgress.find?
        (fun p => p.studentId == sid && p.lessonId == lid) with
    | some row =>
      have hrowp0 := List.find?_some hfind
      have hrowp : (row.studentId == sid && row.lessonId == lid) = true := hrowp0
      have hfault1 : (updateLessonTimeSpent sid lid d1 s).2.failAt = none := by
        rw [updateLessonTimeSpent_eq_of_found hfault hfind]
        exact hfault
      have hdb1 : (updateLessonTimeSpent sid lid d1 s).2.db =
          { s.db with lessonProgress := s.db.lessonProgress.map (fun p =>
              if p.studentId == sid && p.lessonId == lid then
                { p with timeSpent := row.timeSpent + d1 }
              else p) } := by
        rw [updateLessonTimeSpent_eq_of_found hfault hfind]
      have hfind1 : (updateLessonTimeSpent sid lid d1 s).2.db.lessonProgress.find?
          (fun p => p.studentId == sid && p.lessonId == lid) =
          some { row with timeSpent := row.timeSpent + d1 } := by
        rw [hdb1]
        dsimp only
        rw [List.find?_map, lp_key_pred_of_timeSpent_update, hfind]
        rw [Option.map_some']
        rw [if_pos hrowp]
      rw [updateLessonTimeSpent_eq_of_found hfault1 hfind1]
      rw [updateLessonTimeSpent_eq_of_found hfault hfind]
      dsimp only
      rw [updateLessonTimeSpent_eq_of_found hfault hfind]
      dsimp only
      rw [List.map_map]
      congr 1
      apply List.map_congr_left
      intro a _
      by_cases hpa : (a.studentId == sid && a.lessonId == lid) = true
      · simp [Function.comp, hpa, Nat.add_assoc]
      · simp [Function.comp, hpa]
    | none =>
      have hnone : ∀ x ∈ s.db.lessonProgress, ¬ lpKey x = (sid, lid) :=
        fun x hx hk => by
          have := List.find?_eq_none.mp hfind x hx
          exact this (lpKeyP_iff.mpr hk)
      have hfault1 : (updateLessonTimeSpent sid lid d1 s).2.failAt = none := by
        rw [updateLessonTimeSpent_eq_of_not_found hfault hfind]
        exact hfault
      have hdb1 : (updateLessonTimeSpent sid lid d1 s).2.db =
          { s.db with lessonProgress := s.db.lessonProgress ++
              [{ id := freshId (s.db.lessonProgress.map (fun p => p.id)),
                 studentId := sid, lessonId := lid,
                 isCompleted := 0, completedAt := none, timeSpent := d1 }] } := by
        rw [updateLessonTimeSpent_eq_of_not_found hfault hfind]
      have hfind1 : (updateLessonTimeSpent sid lid d1 s).2.db.lessonProgress.find?
          (fun p => p.studentId == sid && p.lessonId == lid) =
          some { id := freshId (s.db.lessonProgress.map (fun p => p.id)),
                 studentId := sid, lessonId := lid,
                 isCompleted := 0, completedAt := none, timeSpent := d1 } := by
        rw [hdb1]
        dsimp only
        rw [List.find?_append, hfind]
        simp
      rw [updateLessonTimeSpent_eq_of_found hfault1 hfind1]
      rw [updateLessonTimeSpent_eq_of_not_found hfault hfind]
      dsimp only
      rw [updateLessonTimeSpent_eq_of_not_found hfault hfind]
      dsimp only
      congr 1
      rw [List.map_append, lp_map_id_of_none _ hnone]
      simp

/-- C4 witness: two calls with 30 on a fresh pair leave a stored
timeSpent of 60. -/
theorem updateLessonTimeSpent_accumulates_witness :
    (updateLessonTimeSpent 1 2 30 (updateLessonTimeSpent 1 2 30
      { db := dbW0, now := "t0", failAt := none, calls := 0 }).2).2.db.lessonProgress =
      [{ id := 1, studentId := 1, lessonId := 2,
         isCompleted := 0, completedAt := none, timeSpent := 60 }] := by
  have h := (updateLessonTimeSpent_accumulates
      { db := dbW0, now := "t0", failAt := none, calls := 0 } 1 2 30 30 rfl (by decide)).2.2
  rw [h]
  decide

/-! ## Evaluations of the cascade deletes -/

theorem deleteCourse_eq_of_ok {s : EngSt} {cid : Nat} (hfault : s.failAt = none) :
    deleteCourse cid s =
      (Except.ok (),
        { s with
            db := { s.db with
              courses := s.db.courses.filter (fun c => !(c.id == cid)),
              lessons := s.db.lessons.filter (fun l => !(l.courseId == cid)),
              quizzes := s.db.quizzes.filter (fun q => !(q.courseId == cid)),
              enrollments := s.db.enrollments.filter (fun e => !(e.courseId == cid)),
              announcements := s.db.announcements.filter (fun a => !(a.courseId == some cid)),
              assignments := s.db.assignments.filter (fun a => !(a.courseId == cid)) },
            calls := s.calls + 1 + 1 + 1 + 1 + 1 + 1 }) := by
  simp [deleteCourse, tryCatchM, bindM, dbRun, dbCall, throwM, hfault]

theorem deleteQuiz_eq_of_ok {s : EngSt} {qid : Nat} (hfault : s.failAt = none) :
    deleteQuiz qid s =
      (Except.ok (),
        { s with
            db := { s.db with
              quizzes := s.db.quizzes.filter (fun q => !(q.id == qid)),
              quizQuestions := s.db.quizQuestions.filter (fun q => !(q.quizId == qid)),
              quizAttempts := s.db.quizAttempts.filter (fun a => !(a.quizId == qid)) },
            calls := s.calls + 1 + 1 + 1 }) := by
  simp [deleteQuiz, tryCatchM, bindM, dbRun, dbCall, throwM, hfault]

theorem deleteLesson_eq_of_ok {s : EngSt} {lid : Nat} (hfault : s.failAt = none) :
    deleteLesson lid s =
      (Except.ok (),
        { s with
            db := { s.db with
              lessons := s.db.lessons.filter (fun l => !(l.id == lid)),
              lessonProgress := s.db.lessonProgress.filter (fun p => !(p.lessonId == lid)) },
            calls := s.calls + 1 + 1 }) := by
  simp [deleteLesson, tryCatchM, bindM, dbRun, dbCall, throwM, hfault]

theorem deleteQuestion_eq_of_ok {s : EngSt} {qnid : Nat} (hfault : s.failAt = none) :
    deleteQuestion qnid s =
      (Except.ok (),
        { s with
            db := { s.db with
              quizQuestions := s.db.quizQuestions.filter (fun q => !(q.id == qnid)),
              quizAnswers := s.db.quizAnswers.filter (fun a => !(a.questionId == qnid)) },
            calls := s.calls + 1 + 1 }) := by
  simp [deleteQuestion, tryCatchM, bindM, dbRun, dbCall, throwM, hfault]

/-- C3: on success deleteCourse leaves zero rows referencing the course
in lessons, quizzes, enrollments, announcements and assignments, and
deletes the course row itself; and the dependent deletes are issued in
exactly that order before the course delete — an engine failure at the
k-th statement surfaces the error to the caller, aborts the remainder,
and leaves exactly the first k deletes applied (no rollback). -/
theorem deleteCourse_cascade_spec (s : EngSt) (db : DB) (now : String) (cid : Nat) :
    (s.failAt = none →
      (deleteCourse cid s).1 = Except.ok () ∧
      (∀ l ∈ (deleteCourse cid s).2.db.lessons, ¬ l.courseId = cid) ∧
      (∀ q ∈ (deleteCourse cid s).2.db.quizzes, ¬ q.courseId = cid) ∧
      (∀ e ∈ (deleteCourse cid s).2.db.enrollments, ¬ e.courseId = cid) ∧
      (∀ a ∈ (deleteCourse cid s).2.db.announcements, ¬ a.courseId = some cid) ∧
      (∀ a ∈ (deleteCourse cid s).2.db.assignments, ¬ a.courseId = cid) ∧
      (∀ c ∈ (deleteCourse cid s).2.db.courses, ¬ c.id = cid)) ∧
    (deleteCourse cid { db := db, now := now, failAt := some 0, calls := 0 } =
      (Except.error ("Database error"),
        { db := db, now := now, failAt := some 0, calls := 1 })) ∧
    (deleteCourse cid { db := db, now := now, failAt := some 1, calls := 0 } =
      (Except.error ("Database error"),
        { db := { db with lessons := db.lessons.filter (fun l => !(l.courseId == cid)) },
          now := now, failAt := some 1, calls := 2 })) ∧
    (deleteCourse cid { db := db, now := now, failAt := some 2, calls := 0 } =
      (Except.error ("Database error"),
        { db := { db with
            lessons := db.lessons.filter (fun l => !(l.courseId == cid)),
            quizzes := db.quizzes.filter (fun q => !(q.courseId == cid)) },
          now := now, failAt := some 2, calls := 3 })) ∧
    (deleteCourse cid { db := db, now := now, failAt := some 3, calls := 0 } =
      (Except.error ("Database error"),
        { db := { db with
            lessons := db.lessons.filter (fun l => !(l.courseId == cid)),
            quizzes := db.quizzes.filter (fun q => !(q.courseId == cid)),
            enrollments := db.enrollments.filter (fun e => !(e.courseId == cid)) },
          now := now, failAt := some 3, calls := 4 })) ∧
    (deleteCourse cid { db := db, now := now, failAt := some 4, calls := 0 } =
      (Except.error ("Database error"),
        { db := { db with
            lessons := db.lessons.filter (fun l => !(l.courseId == cid)),
            quizzes := db.quizzes.filter (fun q => !(q.courseId == cid)),
            enrollments := db.enrollments.filter (fun e => !(e.courseId == cid)),
            announcements := db.announcements.filter (fun a => !(a.courseId == some cid)) },
          now := now, failAt := some 4, calls := 5 })) ∧
    (deleteCourse cid { db := db, now := now, failAt := some 5, calls := 0 } =
      (Except.error ("Database error"),
        { db := { db with
            lessons := db.lessons.filter (fun l => !(l.courseId == cid)),
            quizzes := db.quizzes.filter (fun q => !(q.courseId == cid)),
            enrollments := db.enrollments.filter (fun e => !(e.courseId == cid)),
            announcements := db.announcements.filter (fun a => !(a.courseId == some cid)),
            assignments := db.assignments.filter (fun a => !(a.courseId == cid)) },
          now := now, failAt := some 5, calls := 6 })) := by
  refine ⟨?_, ?_, ?_, ?_, ?_, ?_, ?_⟩
  · intro hfault
    rw [deleteCourse_eq_of_ok hfault]
    refine ⟨rfl, ?_, ?_, ?_, ?_, ?_, ?_⟩ <;>
      · intro x hx
        dsimp only at hx
        simpa using (List.mem_filter.mp hx).2
  all_goals simp [deleteCourse, tryCatchM, bindM, dbRun, dbCall, throwM]

theorem deleteCourse_cascade_spec_witness :
    (deleteCourse 1 { db := dbW3, now := "t", failAt := none, calls := 0 }).1 =
      Except.ok () :=
  ((deleteCourse_cascade_spec { db := dbW3, now := "t", failAt := none, calls := 0 }
      dbW3 "t" 1).1 rfl).1

/-- C9 counterexample: on a concrete database where course 1 owns quiz 1
with question 1, attempt 1 and answer 1, neither deleteQuiz nor
deleteLesson ever removes the quiz_answers row — only deleteQuestion
does — so the orphaned answer rows are not removed by the deleteLesson
and deleteQuiz operations the claim names. -/
theorem deleteQuiz_leaves_answers_cex :
    (deleteQuiz 1 { db := dbW3, now := "t", failAt := none, calls := 0 }).2.db.quizAnswers =
      [{ id := 1, attemptId := 1, questionId := 1, studentAnswer := "a", isCorrect := 1 }] ∧
    (deleteLesson 1 { db := dbW3, now := "t", failAt := none, calls := 0 }).2.db.quizAnswers =
      [{ id := 1, attemptId := 1, questionId := 1, studentAnswer := "a", isCorrect := 1 }] ∧
    (deleteQuestion 1 { db := dbW3, now := "t", failAt := none, calls := 0 }).2.db.quizAnswers =
      [] :=
  ⟨rfl, rfl, rfl⟩

/-- C9 amended: deleteCourse does not cascade past its direct children —
it leaves the lesson_progress, quiz_questions, quiz_attempts and
quiz_answers tables exactly unchanged, so rows referencing the deleted
course's lessons and quizzes remain as orphans; lesson_progress rows
are only removed by the narrower deleteLesson, quiz_questions and
quiz_attempts rows by deleteQuiz, and quiz_answers rows only by
deleteQuestion (deleteQuiz leaves quiz_answers untouched as well), none
of which deleteCourse invokes. -/
theorem deleteCourse_frame_spec (s : EngSt) (cid qid lid qnid : Nat)
    (hfault : s.failAt = none) :
    ((deleteCourse cid s).2.db.lessonProgress = s.db.lessonProgress ∧
     (deleteCourse cid s).2.db.quizQuestions = s.db.quizQuestions ∧
     (deleteCourse cid s).2.db.quizAttempts = s.db.quizAttempts ∧
     (deleteCourse cid s).2.db.quizAnswers = s.db.quizAnswers) ∧
    ((deleteQuiz qid s).2.db.quizQuestions =
        s.db.quizQuestions.filter (fun q => !(q.quizId == qid)) ∧
     (deleteQuiz qid s).2.db.quizAttempts =
        s.db.quizAttempts.filter (fun a => !(a.quizId == qid)) ∧
     (deleteQuiz qid s).2.db.quizAnswers = s.db.quizAnswers) ∧
    ((deleteLesson lid s).2.db.lessonProgress =
        s.db.lessonProgress.filter (fun p => !(p.lessonId == lid)) ∧
     (deleteLesson lid s).2.db.quizAnswers = s.db.quizAnswers) ∧
    ((deleteQuestion qnid s).2.db.quizAnswers =
        s.db.quizAnswers.filter (fun a => !(a.questionId == qnid)) ∧
     (deleteQuestion qnid s).2.db.lessonProgress = s.db.lessonProgress) := by
  rw [deleteCourse_eq_of_ok hfault, deleteQuiz_eq_of_ok hfault,
    deleteLesson_eq_of_ok hfault, deleteQuestion_eq_of_ok hfault]
  exact ⟨⟨rfl, rfl, rfl, rfl⟩, ⟨rfl, rfl, rfl⟩, ⟨rfl, rfl⟩, ⟨rfl, rfl⟩⟩

theorem deleteCourse_frame_spec_witness :
    (deleteCourse 1 { db := dbW3, now := "t", failAt := none, calls := 0 }).2.db.quizAnswers =
      [{ id := 1, attemptId := 1, questionId := 1, studentAnswer := "a", isCorrect := 1 }] := by
  have h := ((deleteCourse_frame_spec { db := dbW3, now := "t", failAt := none, calls := 0 }
      1 1 1 1 rfl).1).2.2.2
  rw [h]
  decide

/-! ## Ordering of the lesson fetch -/

theorem insertSorted_perm {α : Type} (le : α → α → Bool) (a : α) (l : List α) :
    (insertSorted le a l).Perm (a :: l) := by
  induction l with
  | nil => exact List.Perm.refl _
  | cons b rest ih =>
    by_cases h : le a b = true
    · rw [insertSorted, if_pos h]
    · rw [insertSorted, if_neg h]
      exact (ih.cons b).trans (List.Perm.swap a b rest)

theorem orderBy_perm {α : Type} (le : α → α → Bool) (l : List α) :
    (orderBy le l).Perm l := by
  induction l with
  | nil => exact List.Perm.refl _
  | cons a rest ih =>
    exact (insertSorted_perm le a (orderBy le rest)).trans (ih.cons a)

theorem insertSorted_sorted {α : Type} {le : α → α → Bool}
    (htrans : ∀ a b c, le a b = true → le b c = true → le a c = true)
    (htot : ∀ a b, (le a b || le b a) = true)
    (a : α) {l : List α} (hl : List.Pairwise (fun x y => le x y = true) l) :
    List.Pairwise (fun x y => le x y = true) (insertSorted le a l) := by
  induction l with
  | nil => simp [insertSorted]
  | cons b rest ih =>
    rcases List.pairwise_cons.mp hl with ⟨hb, hrest⟩
    by_cases h : le a b = true
    · rw [insertSorted, if_pos h]
      refine List.pairwise_cons.mpr ⟨?_, hl⟩
      intro x hx
      rcases List.mem_cons.mp hx with hxb | hxr
      · rw [hxb]; exact h
      · exact htrans a b x h (hb x hxr)
    · rw [insertSorted, if_neg h]
      have hba : le b a = true := by
        have := htot a b
        rcases Bool.or_eq_true_iff.mp this with h1 | h2
        · exact absurd h1 h
        · exact h2
      refine List.pairwise_cons.mpr ⟨?_, ih hrest⟩
      intro x hx
      rcases List.mem_cons.mp ((insertSorted_perm le a rest).mem_iff.mp hx) with hxa | hxr
      · rw [hxa]; exact hba
      · exact hb x hxr

theorem orderBy_sorted {α : Type} {le : α → α → Bool}
    (htrans : ∀ a b c, le a b = true → le b c = true → le a c = true)
    (htot : ∀ a b, (le a b || le b a) = true) (l : List α) :
    List.Pairwise (fun x y => le x y = true) (orderBy le l) := by
  induction l with
  | nil => exact List.Pairwise.nil
  | cons a rest ih => exact insertSorted_sorted htrans htot a ih

theorem seqLe_trans (a b c : LessonRow) :
    (a.sequenceNumber ≤ b.sequenceNumber : Bool) = true →
    (b.sequenceNumber ≤ c.sequenceNumber : Bool) = true →
    (a.sequenceNumber ≤ c.sequenceNumber : Bool) = true := by
  intro h1 h2
  simp only [decide_eq_true_eq] at h1 h2 ⊢
  exact Nat.le_trans h1 h2

theorem seqLe_total (a b : LessonRow) :
    ((a.sequenceNumber ≤ b.sequenceNumber : Bool) ||
      (b.sequenceNumber ≤ a.sequenceNumber : Bool)) = true := by
  simp only [Bool.or_eq_true, decide_eq_true_eq]
  exact Nat.le_total _ _

theorem fetchLessonsQuery_sorted (db : DB) (cid : Nat) :
    List.Sorted (fun a b : LessonRow => a.sequenceNumber ≤ b.sequenceNumber)
      (fetchLessonsQuery cid db) :=
  List.Pairwise.imp (fun h => of_decide_eq_true h)
    (orderBy_sorted seqLe_trans seqLe_total
      (db.lessons.filter (fun l => l.courseId == cid)))

theorem fetchLessonsQuery_perm (db : DB) (cid : Nat) :
    (fetchLessonsQuery cid db).Perm (db.lessons.filter (fun l => l.courseId == cid)) :=
  orderBy_perm _ _

/-- C7: fetchLessons returns exactly the lessons of the course (a
permutation of the rows whose courseId matches) sorted by ascending
sequenceNumber, and this is independent of the insertion order of the
lessons table: for any permutation of the stored rows the result is a
permutation of the same rows, still sorted, with an identical sequence
of sequence numbers. -/
theorem fetchLessons_ordered_spec (s : EngSt) (db db2 : DB) (cid : Nat)
    (hfault : s.failAt = none) :
    ((fetchLessons cid s).1 = Except.ok (some (fetchLessonsQuery cid s.db))) ∧
    (List.Sorted (fun a b : LessonRow => a.sequenceNumber ≤ b.sequenceNumber)
      (fetchLessonsQuery cid db)) ∧
    ((fetchLessonsQuery cid db).Perm
      (db.lessons.filter (fun l => l.courseId == cid))) ∧
    (db2.lessons.Perm db.lessons →
      (fetchLessonsQuery cid db2).Perm (fetchLessonsQuery cid db) ∧
      (fetchLessonsQuery cid db2).map (fun l => l.sequenceNumber) =
        (fetchLessonsQuery cid db).map (fun l => l.sequenceNumber)) := by
  refine ⟨?_, fetchLessonsQuery_sorted db cid, fetchLessonsQuery_perm db cid, ?_⟩
  · simp [fetchLessons, tryCatchM, bindM, dbQuery, dbCall, pureM, hfault]
  · intro hperm
    have hp : (fetchLessonsQuery cid db2).Perm (fetchLessonsQuery cid db) :=
      (fetchLessonsQuery_perm db2 cid).trans
        ((hperm.filter _).trans (fetchLessonsQuery_perm db cid).symm)
    refine ⟨hp, ?_⟩
    have hs2 : List.Sorted (fun a b : Nat => a ≤ b)
        ((fetchLessonsQuery cid db2).map (fun l => l.sequenceNumber)) :=
      List.Pairwise.map (fun l : LessonRow => l.sequenceNumber) (fun a b h => h)
        (fetchLessonsQuery_sorted db2 cid)
    have hs1 : List.Sorted (fun a b : Nat => a ≤ b)
        ((fetchLessonsQuery cid db).map (fun l => l.sequenceNumber)) :=
      List.Pairwise.map (fun l : LessonRow => l.sequenceNumber) (fun a b h => h)
        (fetchLessonsQuery_sorted db cid)
    haveI : IsAntisymm Nat (fun a b : Nat => a ≤ b) :=
      ⟨fun a b h1 h2 => Nat.le_antisymm h1 h2⟩
    exact List.eq_of_perm_of_sorted (hp.map (fun l => l.sequenceNumber)) hs2 hs1

theorem fetchLessons_ordered_spec_witness :
    (fetchLessons 1 { db := dbW5, now := "t", failAt := none, calls := 0 }).1 =
      Except.ok (some [{ id := 2, courseId := 1, title := "L1", sequenceNumber := 1 },
                       { id := 1, courseId := 1, title := "L2", sequenceNumber := 2 }]) := by
  have h := (fetchLessons_ordered_spec { db := dbW5, now := "t", failAt := none, calls := 0 }
      dbW5 dbW5 1 rfl).1
  rw [h]
  exact congrArg (fun x => (Except.ok (some x) : Except String (Option (List LessonRow))))
    (by decide)

/-! ## Auth store -/

/-- C5: when a stored user matches the email and password but has a
different role, login fails with the role-mismatch message naming that
user's actual stored role; when no stored user matches email and
password, it fails with the generic invalid-credentials message; and
when a user matches all three, login succeeds, the session holds that
user, and the role equals the requested one.  The uniqueness hypothesis
mirrors the schema's UNIQUE constraint on users.email. -/
theorem login_role_check_spec (s : AuthSt) (email password : String) (role : Role)
    (huniq : allDistinctBy userEmail s.db.users = true) :
    (∀ u ∈ s.db.users, u.email = email → u.password = password → ¬ u.role = role →
      (login email password role s).1 =
        Except.error ("This account is registered as a " ++ roleString u.role
          ++ ". Please select the correct role.") ∧
      (login email password role s).2 = s) ∧
    ((∀ u ∈ s.db.users, ¬ (u.email = email ∧ u.password = password)) →
      (login email password role s).1 = Except.error ("Invalid email or password") ∧
      (login email password role s).2 = s) ∧
    (∀ u ∈ s.db.users, u.email = email → u.password = password → u.role = role →
      (login email password role s).1 = Except.ok u ∧
      (login email password role s).2.session =
        { user := some u, isLoggedIn := true }) := by
  refine ⟨?_, ?_, ?_⟩
  · intro u hu hemail hpwd hrole
    have hfind3 : s.db.users.find? (fun x =>
        x.email == email && x.password == password && decide (x.role = role)) = none := by
      rw [List.find?_eq_none]
      intro x hx hpx
      simp only [Bool.and_eq_true, beq_iff_eq, decide_eq_true_eq] at hpx
      have hxu : x = u := allDistinctBy_unique huniq x hx u hu (hpx.1.1.trans hemail.symm)
      rw [hxu] at hpx
      exact hrole hpx.2
    have hfind2 : s.db.users.find? (fun x =>
        x.email == email && x.password == password) = some u := by
      apply find?_eq_some_of_unique hu
      · simp [hemail, hpwd]
      · intro x hx hpx
        simp only [Bool.and_eq_true, beq_iff_eq] at hpx
        exact allDistinctBy_unique huniq x hx u hu (hpx.1.trans hemail.symm)
    simp [login, hfind3, hfind2]
  · intro hnone
    have hfind3 : s.db.users.find? (fun x =>
        x.email == email && x.password == password && decide (x.role = role)) = none := by
      rw [List.find?_eq_none]
      intro x hx hpx
      simp only [Bool.and_eq_true, beq_iff_eq, decide_eq_true_eq] at hpx
      exact hnone x hx ⟨hpx.1.1, hpx.1.2⟩
    have hfind2 : s.db.users.find? (fun x =>
        x.email == email && x.password == password) = none := by
      rw [List.find?_eq_none]
      intro x hx hpx
      simp only [Bool.and_eq_true, beq_iff_eq] at hpx
      exact hnone x hx ⟨hpx.1, hpx.2⟩
    simp [login, hfind3, hfind2]
  · intro u hu hemail hpwd hrole
    have hfind3 : s.db.users.find? (fun x =>
        x.email == email && x.password == password && decide (x.role = role)) = some u := by
      apply find?_eq_some_of_unique hu
      · simp [hemail, hpwd, hrole]
      · intro x hx hpx
        simp only [Bool.and_eq_true, beq_iff_eq, decide_eq_true_eq] at hpx
        exact allDistinctBy_unique huniq x hx u hu (hpx.1.1.trans hemail.symm)
    simp [login, hfind3]

theorem login_role_check_spec_witness :
    (login "a@b.c" "pw" Role.student
      { db := dbW6, session := { user := none, isLoggedIn := false } }).1 =
      Except.error ("This account is registered as a " ++ roleString Role.teacher
        ++ ". Please select the correct role.") :=
  ((login_role_check_spec
      { db := dbW6, session := { user := none, isLoggedIn := false } }
      "a@b.c" "pw" Role.student (by decide)).1
    { id := 1, email := "a@b.c", password := "pw", name := "N", role := Role.teacher }
    (by decide) rfl rfl (by decide)).1

/-- C6: signup with an already-registered email fails with the
duplicate-email error and leaves the whole state (in particular the
users table) unchanged; with a fresh email it inserts exactly one new
user row and never sets the in-memory session (no auto-login). -/
theorem signup_duplicate_spec (s : AuthSt) (email password name : String) (role : Role) :
    ((∃ u ∈ s.db.users, u.email = email) →
      (signup email password name role s).1 = Except.error ("Email already registered") ∧
      (signup email password name role s).2 = s) ∧
    ((∀ u ∈ s.db.users, ¬ u.email = email) →
      (signup email password name role s).1 = Except.ok () ∧
      (signup email password name role s).2.db.users =
        s.db.users ++ [{ id := freshId (s.db.users.map (fun u => u.id)),
                         email := email, password := password, name := name,
                         role := role }] ∧
      (signup email password name role s).2.session = s.session) := by
  constructor
  · rintro ⟨u, hu, he⟩
    cases hfind : s.db.users.find? (fun x => x.email == email) with
    | some v => simp [signup, hfind]
    | none =>
      exact absurd (by simp [he] : ((fun x : UserRow => x.email == email) u) = true)
        (List.find?_eq_none.mp hfind u hu)
  · intro hnone
    have hfind : s.db.users.find? (fun x => x.email == email) = none := by
      rw [List.find?_eq_none]
      intro x hx hpx
      simp only [beq_iff_eq] at hpx
      exact hnone x hx hpx
    simp [signup, hfind]

theorem signup_duplicate_spec_witness :
    (signup "a@b.c" "x" "M" Role.student
      { db := dbW6, session := { user := none, isLoggedIn := false } }).1 =
      Except.error ("Email already registered") :=
  ((signup_duplicate_spec { db := dbW6, session := { user := none, isLoggedIn := false } }
      "a@b.c" "x" "M" Role.student).1
    ⟨{ id := 1, email := "a@b.c", password := "pw", name := "N", role := Role.teacher },
      by decide, rfl⟩).1

/-! ## Error-handling policy of the progress store -/

/-- C8: when the engine raises an error, the read operations of the
progress store (getCourseProgress, getEnrollment,
fetchStudentEnrollments) swallow it and return a safe default (0, null,
or the untouched cache) — they never propagate an error for any fault
point — while the write operations (updateEnrollmentProgress,
enrollInCourse, markLessonComplete) re-raise the engine error to the
caller. -/
theorem progress_store_error_policy (s : EngSt) (sid cid lid eid pct : Nat) :
    (exceptOk (getCourseProgress sid cid s).1 = true) ∧
    (s.failAt = some s.calls → (getCourseProgress sid cid s).1 = Except.ok 0) ∧
    (exceptOk (getEnrollment sid cid s).1 = true) ∧
    (s.failAt = some s.calls → (getEnrollment sid cid s).1 = Except.ok none) ∧
    (exceptOk (fetchStudentEnrollments sid s).1 = true) ∧
    (s.failAt = some s.calls → (fetchStudentEnrollments sid s).1 = Except.ok none) ∧
    (s.failAt = some s.calls →
      (updateEnrollmentProgress eid pct s).1 = Except.error ("Database error")) ∧
    (s.failAt = some s.calls →
      (enrollInCourse sid cid s).1 = Except.error ("Database error")) ∧
    (s.failAt = some s.calls →
      (markLessonComplete sid lid s).1 = Except.error ("Database error")) := by
  refine ⟨?_, ?_, ?_, ?_, ?_, ?_, ?_, ?_, ?_⟩
  · cases hfind : s.db.enrollments.find?
        (fun e => e.studentId == sid && e.courseId == cid) with
    | some row =>
      cases hf : s.failAt with
      | none =>
        simp [getCourseProgress, tryCatchM, bindM, dbQuery, dbCall, pureM, exceptOk,
          hf, hfind]
      | some k =>
        by_cases hk : k = s.calls <;>
          simp [getCourseProgress, tryCatchM, bindM, dbQuery, dbCall, pureM, exceptOk,
            hf, hk, hfind]
    | none =>
      cases hf : s.failAt with
      | none =>
        simp [getCourseProgress, tryCatchM, bindM, dbQuery, dbCall, pureM, exceptOk,
          hf, hfind]
      | some k =>
        by_cases hk : k = s.calls <;>
          simp [getCourseProgress, tryCatchM, bindM, dbQuery, dbCall, pureM, exceptOk,
            hf, hk, hfind]
  · intro h
    simp [getCourseProgress, tryCatchM, bindM, dbQuery, dbCall, pureM, h]
  · cases hf : s.failAt with
    | none => simp [getEnrollment, tryCatchM, dbQuery, dbCall, pureM, exceptOk, hf]
    | some k =>
      by_cases hk : k = s.calls <;>
        simp [getEnrollment, tryCatchM, dbQuery, dbCall, pureM, exceptOk, hf, hk]
  · intro h
    simp [getEnrollment, tryCatchM, dbQuery, dbCall, pureM, h]
  · cases hf : s.failAt with
    | none =>
      simp [fetchStudentEnrollments, tryCatchM, bindM, dbQuery, dbCall, pureM,
        exceptOk, hf]
    | some k =>
      by_cases hk : k = s.calls <;>
        simp [fetchStudentEnrollments, tryCatchM, bindM, dbQuery, dbCall, pureM,
          exceptOk, hf, hk]
  · intro h
    simp [fetchStudentEnrollments, tryCatchM, bindM, dbQuery, dbCall, pureM, h]
  · intro h
    simp [updateEnrollmentProgress, tryCatchM, dbRun, dbCall, throwM, h]
  · intro h
    simp [enrollInCourse, tryCatchM, bindM, dbQuery, dbCall, throwM, h]
  · intro h
    simp [markLessonComplete, tryCatchM, bindM, dbQuery, dbCall, throwM, h]

theorem progress_store_error_policy_witness :
    (getCourseProgress 1 1 { db := dbW0, now := "t", failAt := some 0, calls := 0 }).1 =
      Except.ok 0 ∧
    (updateEnrollmentProgress 1 50
      { db := dbW0, now := "t", failAt := some 0, calls := 0 }).1 =
      Except.error ("Database error") :=
  ⟨(progress_store_error_policy
      { db := dbW0, now := "t", failAt := some 0, calls := 0 } 1 1 1 1 50).2.1 rfl,
   (progress_store_error_policy
      { db := dbW0, now := "t", failAt := some 0, calls := 0 } 1 1 1 1 50).2.2.2.2.2.2.1 rfl⟩

end ELearn
